import Mathlib

/-!
Verification of the rewriter extension's configuration-resolution and
request-construction pipeline.

The embedding mirrors the two source modules:
* `phase.ts`   — the `RewriterConfig` / `RewriteContext` data model and the
  default model-name constant;
* the binding/extension module — `getRewriterConfig`, `generateRewrite`
  (its prompt-part assembly), `listAvailableModels`, `updateModelConfig`,
  and the `rewriter.rewrite` command handler.

Ambient editor state (module-level `sessionModelName`, the workspace
configuration store, the secret store, the active editor, and the remote
generation call) is passed explicitly; JavaScript `||` truthiness on
optional strings is modelled by `jsOr`.
-/

namespace Rewriter

/-- phase.ts `RewriterConfig`: the effective configuration produced for one
rewrite invocation. -/
structure RewriterConfig where
  apiKey : String
  modelName : String
  prompt : String
  debug : Bool
  examples : List (String × String)
deriving Repr, DecidableEq

/-- phase.ts `RewriteContext`: the selected text plus an optional
per-invocation instruction override (`args?.prompt`). -/
structure RewriteContext where
  text : String
  selectionPrompt : Option String
deriving Repr, DecidableEq

/-- phase.ts `DEFAULT_MODEL_NAME`. -/
def DEFAULT_MODEL_NAME : String := "gemini-2.0-flash"

/-- JavaScript `a || b` where `a : string | undefined`: `undefined` and the
empty string are falsy and fall through to `b`. -/
def jsOr (a : Option String) (b : String) : String :=
  match a with
  | some s => if s = "" then b else s
  | none => b

/-- The readable fields of the `rewriter.*` workspace configuration store:
`config.get("model")`, `config.get("prompt")`, `config.get("examples")`,
each possibly absent. -/
structure WorkspaceConfig where
  model : Option String
  prompt : Option String
  examples : Option (List (String × String))
deriving Repr, DecidableEq

/-- binding module `getRewriterConfig(apiKey)`.  The module-level
`sessionModelName` and the workspace configuration are explicit arguments.
`modelName` is the JS chain `sessionModelName || config.get("model") ||
DEFAULT_MODEL_NAME`; `debug` is hard-coded `true` in the source. -/
def getRewriterConfig (apiKey : String) (sessionModelName : Option String)
    (config : WorkspaceConfig) : RewriterConfig :=
  { apiKey := apiKey
    modelName := jsOr sessionModelName (jsOr config.model DEFAULT_MODEL_NAME)
    prompt := jsOr config.prompt ""
    debug := true
    examples := config.examples.getD [] }

/-- The `promptText` computed inside `generateRewrite`:
`context.selectionPrompt || config.prompt`. -/
def promptTextOf (config : RewriterConfig) (context : RewriteContext) : String :=
  jsOr context.selectionPrompt config.prompt

/-- The `parts` array built by binding module `generateRewrite` and handed to
`model.generateContent`: optional instruction part, then the example pairs in
insertion order, then the real input and the empty output continuation.  Each
JS `parts.push(x)` is an append of `[x]`. -/
def generateRewriteParts (config : RewriterConfig) (context : RewriteContext) :
    List String :=
  let parts : List String := []
  let promptText := promptTextOf config context
  let parts := if promptText = "" then parts else parts ++ ["instruction: " ++ promptText]
  let parts := config.examples.foldl
    (fun ps p => ps ++ ["input: " ++ p.1, "output: " ++ p.2]) parts
  let parts := parts ++ ["input: " ++ context.text]
  parts ++ ["output: "]

/-- binding module `ModelInfo`: one entry of the remote model catalog. -/
structure ModelInfo where
  name : String
  displayName : String
  supportedGenerationMethods : List String
deriving Repr, DecidableEq

/-- JavaScript `String.prototype.replace` with a plain-string pattern and the
empty replacement, on character lists: remove the first occurrence of `pat`
(anywhere in the string), leave the rest unchanged. -/
def removeFirstSub (s pat : List Char) : List Char :=
  match s with
  | [] => []
  | c :: rest =>
    if pat.isPrefixOf (c :: rest) then (c :: rest).drop pat.length
    else c :: removeFirstSub rest pat

/-- `s.replace(pat, "")` for JS strings (first occurrence only). -/
def jsReplaceRemoveFirst (s pat : String) : String :=
  String.mk (removeFirstSub s.data pat.data)

/-- The success-path body of binding module `listAvailableModels`: filter the
catalog entries to those supporting `generateContent`, then map each name
through `name.replace("models/", "")`. -/
def listAvailableModels (models : List ModelInfo) : List String :=
  (models.filter fun m => m.supportedGenerationMethods.contains "generateContent").map
    fun m => jsReplaceRemoveFirst m.name "models/"

/-- Outcome of the `fetch` of the model catalog: a parsed 2xx body, a non-2xx
response (`response.ok` false, with its `statusText`), or a thrown transport
error. -/
inductive FetchResult where
  | success (models : List ModelInfo)
  | httpError (statusText : String)
  | transportError (message : String)
deriving Repr, DecidableEq

/-- binding module `listAvailableModels` including its error handling: a
non-2xx response raises `Failed to fetch models: <statusText>`; a transport
error is logged and re-thrown unchanged; only a successful fetch yields a
list. -/
def listAvailableModelsE (r : FetchResult) : Except String (List String) :=
  match r with
  | .success models => .ok (listAvailableModels models)
  | .httpError statusText => .error ("Failed to fetch models: " ++ statusText)
  | .transportError message => .error message

/-- The mutable state touched by binding module `updateModelConfig`: the
module-level `sessionModelName`, the workspace store, whether
`config.inspect("rewriter.model")` finds the key registered, and whether the
`config.update` write throws. -/
structure ExtensionState where
  sessionModelName : Option String
  workspace : WorkspaceConfig
  modelKeyRegistered : Bool
  persistWriteThrows : Bool
deriving Repr, DecidableEq

/-- binding module `updateModelConfig(modelName)`: always set
`sessionModelName` first; then, best-effort, write the workspace `model`
key — skipped when the key is not registered, and a throwing write is caught
and only logged (the session assignment is never rolled back, also not after
a successful write). -/
def updateModelConfig (modelName : String) (st : ExtensionState) : ExtensionState :=
  let st1 := { st with sessionModelName := some modelName }
  if !st1.modelKeyRegistered then st1
  else if st1.persistWriteThrows then st1
  else { st1 with workspace := { st1.workspace with model := some modelName } }

/-- Terminal outcome of one `rewriter.rewrite` command invocation. -/
inductive RewriteOutcome where
  | noEditor
  | noText
  | missingApiKey
  | deprecatedModel
  | success (result : String)
  | rewriteError (message : String)
deriving Repr, DecidableEq

/-- Environment of one `rewriter.rewrite` invocation: the captured editor
state, the secret store, the ambient configuration state, the command
argument, and the remote generation call as an oracle. -/
structure RewriteEnv where
  activeEditor : Bool
  selectedText : String
  apiKey : Option String
  sessionModelName : Option String
  workspace : WorkspaceConfig
  argsPrompt : Option String
  gen : List String → Except String String

/-- The `rewriter.rewrite` command handler.  Returns the outcome together
with the list of request payloads actually handed to the remote generation
call (so "no network call issued" is `= []`).  The deprecated-model check
runs after configuration resolution and before any generation request. -/
def rewriteCommand (env : RewriteEnv) : RewriteOutcome × List (List String) :=
  if !env.activeEditor then (.noEditor, [])
  else if env.selectedText = "" then (.noText, [])
  else
    match env.apiKey with
    | none => (.missingApiKey, [])
    | some apiKey =>
      let config := getRewriterConfig apiKey env.sessionModelName env.workspace
      if config.modelName = "gemini-pro" then (.deprecatedModel, [])
      else
        let rewriteContext : RewriteContext :=
          { text := env.selectedText, selectionPrompt := env.argsPrompt }
        let parts := generateRewriteParts config rewriteContext
        match env.gen parts with
        | .ok result => (.success result, [parts])
        | .error message => (.rewriteError message, [parts])

/-- Claim-side prompt-part list for a run of example pairs, written
independently of the source: each pair contributes its `input:` part
immediately followed by its `output:` part, in insertion order. -/
def examplesParts : List (String × String) → List String
  | [] => []
  | p :: t => ["input: " ++ p.1, "output: " ++ p.2] ++ examplesParts t

/-- Claim-side name normalisation as the spec words it: strip a leading
`models/` namespace prefix, leave names without that prefix unchanged. -/
def stripModelsNamespace (s : String) : String :=
  if "models/".data.isPrefixOf s.data then String.mk (s.data.drop 7) else s

/-! ### Helper lemmas -/

lemma jsOr_some_ne (s b : String) (h : s ≠ "") : jsOr (some s) b = s := by
  simp [jsOr, h]

lemma jsOr_none (b : String) : jsOr none b = b := rfl

lemma jsOr_some_empty (b : String) : jsOr (some "") b = b := by
  simp [jsOr]

lemma jsOr_ne_empty (a : Option String) (b : String) (hb : b ≠ "") :
    jsOr a b ≠ "" := by
  match a with
  | none => exact hb
  | some s =>
    by_cases hs : s = "" <;> simp [jsOr, hs, hb]

/-! ### C10: the resolved configuration's debug flag is hard-coded `true` -/

/-- C10: for every credential and every session/persisted state, the
configuration produced by `getRewriterConfig` has `debug = true`; the value
is hard-coded in the source and independent of all inputs. -/
theorem getRewriterConfig_debug_true (apiKey : String)
    (sessionModelName : Option String) (config : WorkspaceConfig) :
    (getRewriterConfig apiKey sessionModelName config).debug = true := rfl

/-! ### C1: model-name precedence in `getRewriterConfig` -/

/-- C1 counterexample: a SessionOverride that is set, but set to the empty
string, does not win — `getRewriterConfig` falls through to the persisted
`model` value, so the claim's "the SessionOverride value if it is set" fails
at this state. -/
theorem getRewriterConfig_empty_override_counterexample :
    (getRewriterConfig "key" (some "")
        { model := some "persisted-model", prompt := none, examples := none }).modelName
      = "persisted-model" ∧ "persisted-model" ≠ "" := by
  constructor
  · rfl
  · decide

/-- C1 (amended): `getRewriterConfig` returns as `modelName` the
SessionOverride value when it is set to a non-empty string; when the override
is unset or empty it returns the persisted `model` if that is non-empty, and
the fixed default `DEFAULT_MODEL_NAME` otherwise — the persisted value is
ignored exactly when the override is non-empty. -/
theorem getRewriterConfig_modelName_precedence (apiKey : String)
    (session : Option String) (ws : WorkspaceConfig) :
    (∀ s, session = some s → s ≠ "" →
        (getRewriterConfig apiKey session ws).modelName = s) ∧
    ((session = none ∨ session = some "") →
      (∀ m, ws.model = some m → m ≠ "" →
          (getRewriterConfig apiKey session ws).modelName = m) ∧
      ((ws.model = none ∨ ws.model = some "") →
        (getRewriterConfig apiKey session ws).modelName = DEFAULT_MODEL_NAME)) := by
  constructor
  · intro s hs hne
    simp [getRewriterConfig, hs, jsOr_some_ne s _ hne]
  · intro hsession
    have hs0 : ∀ b, jsOr session b = b := by
      intro b
      rcases hsession with h | h <;> simp [h, jsOr_none, jsOr_some_empty]
    constructor
    · intro m hm hmne
      simp [getRewriterConfig, hs0, hm, jsOr_some_ne m _ hmne]
    · intro hmodel
      rcases hmodel with h | h <;>
        simp [getRewriterConfig, hs0, h, jsOr_none, jsOr_some_empty]

/-- Witness for C1: with a non-empty override `"session-model"` and persisted
value `"persisted"`, resolution returns the override. -/
theorem getRewriterConfig_modelName_precedence_witness :
    (getRewriterConfig "key" (some "session-model")
        { model := some "persisted", prompt := none, examples := none }).modelName
      = "session-model" :=
  (getRewriterConfig_modelName_precedence "key" (some "session-model")
      { model := some "persisted", prompt := none, examples := none }).1
    "session-model" rfl (by decide)

/-! ### C2: `updateModelConfig` always sets the session override first -/

/-- C2: after `updateModelConfig x` the session override equals `x` in every
state — when the configuration key is unregistered, when the persisted write
throws (the failure is swallowed), and also after a successful persisted
write (the override is deliberately not cleared). -/
theorem updateModelConfig_sets_session (modelName : String) (st : ExtensionState) :
    (updateModelConfig modelName st).sessionModelName = some modelName := by
  unfold updateModelConfig
  by_cases hreg : st.modelKeyRegistered <;>
    by_cases hthrow : st.persistWriteThrows <;>
      simp [hreg, hthrow]

/-! ### C5: the active instruction prefers the per-invocation override -/

/-- C5: the active instruction computed by `generateRewrite` is
`selectionPrompt` whenever that is present and non-empty, regardless of the
configured prompt template; otherwise (absent or empty) it is the configured
`prompt`. -/
theorem promptTextOf_selection_override (config : RewriterConfig)
    (context : RewriteContext) :
    (∀ s, context.selectionPrompt = some s → s ≠ "" →
        promptTextOf config context = s) ∧
    ((context.selectionPrompt = none ∨ context.selectionPrompt = some "") →
      promptTextOf config context = config.prompt) := by
  constructor
  · intro s hs hne
    simp [promptTextOf, hs, jsOr_some_ne s _ hne]
  · intro h
    rcases h with h | h <;> simp [promptTextOf, h, jsOr_none, jsOr_some_empty]

/-- Witness for C5: a non-empty `selectionPrompt` wins over a non-empty
configured template. -/
theorem promptTextOf_selection_override_witness :
    promptTextOf
        { apiKey := "key", modelName := "m", prompt := "template", debug := true,
          examples := [] }
        { text := "text", selectionPrompt := some "override" }
      = "override" :=
  (promptTextOf_selection_override
      { apiKey := "key", modelName := "m", prompt := "template", debug := true,
        examples := [] }
      { text := "text", selectionPrompt := some "override" }).1
    "override" rfl (by decide)

/-! ### C3: structure of the assembled prompt parts -/

lemma foldl_examples_append (l : List (String × String)) (acc : List String) :
    l.foldl (fun ps p => ps ++ ["input: " ++ p.1, "output: " ++ p.2]) acc
      = acc ++ examplesParts l := by
  induction l generalizing acc with
  | nil => simp [examplesParts]
  | cons p t ih =>
    rw [List.foldl_cons, ih, examplesParts, List.append_assoc]

/-- C3: `generateRewrite` assembles exactly: an instruction part present if
and only if the active instruction is non-empty, then for each example pair
in insertion order an `input:` part immediately followed by its `output:`
part, then the `input:` part holding the selected text, and an empty
`output:` part last. -/
theorem generateRewriteParts_structure (config : RewriterConfig)
    (context : RewriteContext) :
    generateRewriteParts config context
      = (if promptTextOf config context = "" then []
          else ["instruction: " ++ promptTextOf config context])
        ++ examplesParts config.examples
        ++ ["input: " ++ context.text, "output: "] := by
  by_cases h : promptTextOf config context = "" <;>
    simp [generateRewriteParts, h, foldl_examples_append, List.append_assoc]

/-! ### C7: catalog listing propagates transport failures -/

/-- C7: whenever the catalog fetch does not succeed — non-2xx response or
transport failure — `listAvailableModels` fails with an error propagated to
the caller, and never returns a (partial or empty) model list. -/
theorem listAvailableModelsE_transport_failure (r : FetchResult)
    (h : ∀ models, r ≠ FetchResult.success models) :
    (∃ message, listAvailableModelsE r = Except.error message) ∧
    (∀ l, listAvailableModelsE r ≠ Except.ok l) := by
  cases r with
  | success models => exact absurd rfl (h models)
  | httpError statusText =>
    exact ⟨⟨"Failed to fetch models: " ++ statusText, rfl⟩, fun l hl => by
      simp [listAvailableModelsE] at hl⟩
  | transportError message =>
    exact ⟨⟨message, rfl⟩, fun l hl => by simp [listAvailableModelsE] at hl⟩

/-- Witness for C7: a 404 response is not a success and yields an error. -/
theorem listAvailableModelsE_transport_failure_witness :
    (∀ models, FetchResult.httpError "Not Found" ≠ FetchResult.success models) ∧
    (∃ message, listAvailableModelsE (FetchResult.httpError "Not Found")
        = Except.error message) :=
  ⟨fun _ h => FetchResult.noConfusion h,
    (listAvailableModelsE_transport_failure (FetchResult.httpError "Not Found")
        (fun _ h => FetchResult.noConfusion h)).1⟩

/-! ### C8: an empty-string selection is stored but never effective -/

/-- C8: after `updateModelConfig ""` the session override holds the empty
string, yet `getRewriterConfig` falls through it: the resolved model name is
the (non-empty) persisted value when there is one, `DEFAULT_MODEL_NAME`
otherwise, and in particular never the empty string. -/
theorem updateModelConfig_empty_string_selection (st : ExtensionState)
    (apiKey : String) :
    ((updateModelConfig "" st).sessionModelName = some "") ∧
    (∀ m, (updateModelConfig "" st).workspace.model = some m → m ≠ "" →
      (getRewriterConfig apiKey (updateModelConfig "" st).sessionModelName
          (updateModelConfig "" st).workspace).modelName = m) ∧
    (((updateModelConfig "" st).workspace.model = none ∨
        (updateModelConfig "" st).workspace.model = some "") →
      (getRewriterConfig apiKey (updateModelConfig "" st).sessionModelName
          (updateModelConfig "" st).workspace).modelName = DEFAULT_MODEL_NAME) ∧
    (getRewriterConfig apiKey (updateModelConfig "" st).sessionModelName
        (updateModelConfig "" st).workspace).modelName ≠ "" := by
  have hsess := updateModelConfig_sets_session "" st
  refine ⟨hsess, ?_, ?_, ?_⟩
  · intro m hm hmne
    simp [getRewriterConfig, hsess, hm, jsOr_some_empty, jsOr_some_ne m _ hmne]
  · intro h
    rcases h with h | h <;>
      simp [getRewriterConfig, hsess, h, jsOr_none, jsOr_some_empty]
  · have hd : DEFAULT_MODEL_NAME ≠ "" := by decide
    simp only [getRewriterConfig, hsess, jsOr_some_empty]
    exact jsOr_ne_empty _ _ hd

/-- Witness for C8: selecting `""` while `"persisted"` is stored (and the
configuration key is unregistered, so the store is untouched) resolves to
`"persisted"`. -/
theorem updateModelConfig_empty_string_selection_witness :
    (getRewriterConfig "key"
        (updateModelConfig ""
          { sessionModelName := none,
            workspace := { model := some "persisted", prompt := none, examples := none },
            modelKeyRegistered := false, persistWriteThrows := false }).sessionModelName
        (updateModelConfig ""
          { sessionModelName := none,
            workspace := { model := some "persisted", prompt := none, examples := none },
            modelKeyRegistered := false, persistWriteThrows := false }).workspace).modelName
      = "persisted" :=
  ((updateModelConfig_empty_string_selection
      { sessionModelName := none,
        workspace := { model := some "persisted", prompt := none, examples := none },
        modelKeyRegistered := false, persistWriteThrows := false } "key").2.1
    "persisted" rfl (by decide))

/-! ### Lemmas on substring removal -/

lemma isPrefixOf_self_append (pat rest : List Char) :
    pat.isPrefixOf (pat ++ rest) = true := by
  induction pat with
  | nil => simp
  | cons c t ih => simp [List.cons_append, List.isPrefixOf_cons₂, ih]

lemma eq_append_of_isPrefixOf (pat : List Char) :
    ∀ l : List Char, pat.isPrefixOf l = true → ∃ t, l = pat ++ t := by
  induction pat with
  | nil => exact fun l _ => ⟨l, rfl⟩
  | cons c ct ih =>
    intro l h
    cases l with
    | nil => simp [List.isPrefixOf] at h
    | cons d dt =>
      simp only [List.isPrefixOf_cons₂, Bool.and_eq_true, beq_iff_eq] at h
      obtain ⟨t, ht⟩ := ih dt h.2
      exact ⟨t, by rw [h.1, ht]; rfl⟩

lemma removeFirstSub_append_left (pat b : List Char) (hp : pat ≠ []) :
    removeFirstSub (pat ++ b) pat = b := by
  match pat, hp with
  | c :: t, _ =>
    have hpre : (c :: t).isPrefixOf (c :: (t ++ b)) = true := by
      have := isPrefixOf_self_append (c :: t) b
      simp only [List.cons_append] at this
      exact this
    show removeFirstSub (c :: (t ++ b)) (c :: t) = b
    rw [removeFirstSub, if_pos hpre]
    simp only [List.length_cons, List.drop_succ_cons]
    exact List.drop_left t b

lemma removeFirstSub_of_no_early_occurrence (a pat b : List Char) (hp : pat ≠ [])
    (h : ∀ i, i < a.length → pat.isPrefixOf ((a ++ (pat ++ b)).drop i) = false) :
    removeFirstSub (a ++ (pat ++ b)) pat = a ++ b := by
  induction a with
  | nil => simpa using removeFirstSub_append_left pat b hp
  | cons c t ih =>
    have h0 : pat.isPrefixOf (c :: (t ++ (pat ++ b))) = false := by
      simpa using h 0 (by simp)
    show removeFirstSub (c :: (t ++ (pat ++ b))) pat = c :: (t ++ b)
    rw [removeFirstSub, if_neg (by simp [h0])]
    congr 1
    apply ih
    intro i hi
    simpa [List.drop_succ_cons] using h (i + 1) (by simpa using Nat.succ_lt_succ hi)

/-! ### C6: capability filtering and name normalisation on success -/

/-- C6 counterexample: for a retained entry whose name contains `models/` in
a non-prefix position, the code removes that inner occurrence instead of
leaving the (absent) namespace prefix alone, so the returned name is not the
prefix-stripped name the claim describes. -/
theorem listAvailableModels_nonprefix_counterexample :
    listAvailableModels
        [{ name := "xmodels/y", displayName := "d",
           supportedGenerationMethods := ["generateContent"] }]
      = ["xy"] ∧
    stripModelsNamespace "xmodels/y" = "xmodels/y" ∧
    ("xy" : String) ≠ "xmodels/y" := by
  refine ⟨by decide, by decide, by decide⟩

/-- C6 (amended): on a successful catalog response whose entry names carry
the catalog's `models/` namespace prefix, `listAvailableModels` returns
exactly the names of the entries whose supported-generation-method list
includes `generateContent`, each with that prefix stripped, in the order
received (for other names it is the first occurrence of the substring
`models/` that is removed); in particular the claim's example input yields
exactly `["foo"]`. -/
theorem listAvailableModels_capable_strip (models : List ModelInfo)
    (h : ∀ m ∈ models, "models/".data.isPrefixOf m.name.data = true) :
    (listAvailableModels models
      = (models.filter fun m =>
            m.supportedGenerationMethods.contains "generateContent").map
          (fun m => stripModelsNamespace m.name)) ∧
    listAvailableModels
        [{ name := "models/foo", displayName := "foo",
           supportedGenerationMethods := ["generateContent"] },
         { name := "models/bar", displayName := "bar",
           supportedGenerationMethods := ["embedContent"] }]
      = ["foo"] := by
  constructor
  · unfold listAvailableModels
    apply List.map_congr_left
    intro m hm
    have hpre : "models/".data.isPrefixOf m.name.data = true :=
      h m (List.mem_filter.mp hm).1
    obtain ⟨t, ht⟩ := eq_append_of_isPrefixOf "models/".data m.name.data hpre
    have hlen : ("models/".data).length = 7 := by decide
    rw [jsReplaceRemoveFirst, stripModelsNamespace, if_pos hpre, ht, ← hlen,
      List.drop_left]
    rw [removeFirstSub_append_left _ t (by decide)]
  · decide

/-- Witness for C6: the claim's own example catalog satisfies the
prefixed-name hypothesis and the returned list matches the filtered,
prefix-stripped names. -/
theorem listAvailableModels_capable_strip_witness :
    listAvailableModels
        [{ name := "models/foo", displayName := "foo",
           supportedGenerationMethods := ["generateContent"] },
         { name := "models/bar", displayName := "bar",
           supportedGenerationMethods := ["embedContent"] }]
      = ([{ name := "models/foo", displayName := "foo",
            supportedGenerationMethods := ["generateContent"] },
          { name := "models/bar", displayName := "bar",
            supportedGenerationMethods := ["embedContent"] }].filter
          (fun m : ModelInfo =>
            m.supportedGenerationMethods.contains "generateContent")).map
          (fun m => stripModelsNamespace m.name) :=
  (listAvailableModels_capable_strip
      [{ name := "models/foo", displayName := "foo",
         supportedGenerationMethods := ["generateContent"] },
       { name := "models/bar", displayName := "bar",
         supportedGenerationMethods := ["embedContent"] }]
      (by decide)).1

/-! ### C9: the replacement removes the first occurrence, wherever it is -/

/-- C9: for a retained entry whose name is `a ++ "models/" ++ b` with no
occurrence of `models/` starting inside `a` — so the first occurrence is the
displayed one, possibly not a prefix and possibly followed by further
occurrences inside `b` — the returned name is exactly `a ++ b`: the first
occurrence is dropped even when it is not a prefix, and everything after it,
including later occurrences, is kept. -/
theorem listAvailableModels_removes_first_occurrence (a b : List Char)
    (displayName : String) (methods : List String)
    (hm : methods.contains "generateContent" = true)
    (h : ∀ i, i < a.length →
      "models/".data.isPrefixOf ((a ++ ("models/".data ++ b)).drop i) = false) :
    listAvailableModels
        [{ name := String.mk (a ++ ("models/".data ++ b)),
           displayName := displayName, supportedGenerationMethods := methods }]
      = [String.mk (a ++ b)] := by
  simp only [listAvailableModels, List.filter, hm, List.map]
  rw [jsReplaceRemoveFirst]
  rw [show (String.mk (a ++ ("models/".data ++ b))).data
      = a ++ ("models/".data ++ b) from rfl]
  rw [removeFirstSub_of_no_early_occurrence a "models/".data b (by decide) h]

/-- Witness for C9: the name `tuned/models/models/x` (first occurrence not a
prefix, a second occurrence after it) becomes `tuned/models/x`. -/
theorem listAvailableModels_removes_first_occurrence_witness :
    listAvailableModels
        [{ name := String.mk ("tuned/".data ++ ("models/".data ++ "models/x".data)),
           displayName := "d", supportedGenerationMethods := ["generateContent"] }]
      = [String.mk ("tuned/".data ++ "models/x".data)] :=
  listAvailableModels_removes_first_occurrence "tuned/".data "models/x".data "d"
    ["generateContent"] (by decide) (by decide)

/-! ### C4: the deprecated model halts the rewrite before any remote call -/

/-- C4: in a rewrite invocation with an editor selection present, the
credential present, and the resolved model name equal to the deprecated
`gemini-pro`, the command ends in the deprecated-model failure and the list
of generation requests issued is empty — the flow halts before any remote
generation call. -/
theorem rewriteCommand_deprecated_halts (env : RewriteEnv) (apiKey : String)
    (he : env.activeEditor = true) (ht : env.selectedText ≠ "")
    (hk : env.apiKey = some apiKey)
    (hd : (getRewriterConfig apiKey env.sessionModelName env.workspace).modelName
      = "gemini-pro") :
    rewriteCommand env = (RewriteOutcome.deprecatedModel, []) := by
  unfold rewriteCommand
  rw [he, hk]
  simp [ht, hd]

/-- Witness for C4: credential present, override unset, persisted model
`gemini-pro`, a generation oracle ready to answer — the command still halts
with the deprecated-model outcome and issues no generation request. -/
theorem rewriteCommand_deprecated_halts_witness :
    rewriteCommand
        { activeEditor := true, selectedText := "hello", apiKey := some "key",
          sessionModelName := none,
          workspace := { model := some "gemini-pro", prompt := none, examples := none },
          argsPrompt := none, gen := fun _ => Except.ok "result" }
      = (RewriteOutcome.deprecatedModel, []) :=
  rewriteCommand_deprecated_halts
    { activeEditor := true, selectedText := "hello", apiKey := some "key",
      sessionModelName := none,
      workspace := { model := some "gemini-pro", prompt := none, examples := none },
      argsPrompt := none, gen := fun _ => Except.ok "result" }
    "key" rfl (by decide) rfl (by decide)

end Rewriter
